import Mathlib

/-!
Verification of the `bridges` registration-and-execution engine
(`src/bridges/core/basic.py`, `src/bridges/core/types.py`) via a shallow
embedding: Python dicts become insertion-ordered association lists, Python
values become the inductive `V`, fallible code returns `Except`, and each
method of `FunctionMetadata` / `Bridge` becomes an explicit Lean function
translated clause by clause from the source.
-/

namespace Bridges

/-- Model of the Python values that flow through the engine: parameter
values, context entries, stored class instances. `obj cls truthy` models an
arbitrary class instance, carrying only the data the engine inspects
(its class name and the result of `bool(instance)`). -/
inductive V where
  | none
  | bool (b : Bool)
  | int (n : Int)
  | str (s : String)
  | tuple (elems : List V)
  | list (elems : List V)
  | obj (cls : String) (truthy : Bool)

/-- Python truthiness (`bool(v)`), as used by `if not instance:` and
`if instance_name` in `basic.py`. -/
def pyTruthy : V → Bool
  | V.none => false
  | V.bool b => b
  | V.int n => decide (n ≠ 0)
  | V.str s => !s.isEmpty
  | V.tuple l => !l.isEmpty
  | V.list l => !l.isEmpty
  | V.obj _ t => t

mutual

/-- Python `repr(v)` (containers render their elements with `repr`). -/
def pyRepr : V → String
  | V.none => "None"
  | V.bool b => if b then "True" else "False"
  | V.int n => toString n
  | V.str s => "\x27" ++ s ++ "\x27"
  | V.tuple l => "(" ++ pyReprSep l ++ ")"
  | V.list l => "[" ++ pyReprSep l ++ "]"
  | V.obj c _ => "<" ++ c ++ " object>"

/-- Comma-separated `repr` of a list of values. -/
def pyReprSep : List V → String
  | [] => ""
  | [x] => pyRepr x
  | x :: xs => pyRepr x ++ ", " ++ pyReprSep xs

end

/-- Python `str(v)`: identity on strings, `repr` on containers and objects
without a custom `__str__`. -/
def pyStr : V → String
  | V.str s => s
  | v => pyRepr v

/-- A Python `dict[str, Any]` as an insertion-ordered association list
(the model of `Bridge.context` and of raw parameter mappings). -/
abbrev Ctx := List (String × V)

/-- `d.get(key)`: the value under `key`, if present. -/
def ctxGet : Ctx → String → Option V
  | [], _ => Option.none
  | (k, v) :: rest, key => if k = key then some v else ctxGet rest key

/-- `d[key] = value`: overwrite in place if the key exists, else append
(Python dicts preserve insertion order). -/
def ctxSet : Ctx → String → V → Ctx
  | [], key, v => [(key, v)]
  | (k, w) :: rest, key, v =>
      if k = key then (k, v) :: rest else (k, w) :: ctxSet rest key v

theorem ctxGet_ctxSet_self (c : Ctx) (k : String) (v : V) :
    ctxGet (ctxSet c k v) k = some v := by
  induction c with
  | nil => simp [ctxSet, ctxGet]
  | cons hd tl ih =>
      obtain ⟨k0, w⟩ := hd
      by_cases h : k0 = k
      · simp [ctxSet, ctxGet, h]
      · simp [ctxSet, ctxGet, h, ih]

/-! ## `Bridge` context state and its versioned history
(`Bridge.__init__`, `update_context`, `clear_context`, `restore_context`,
`get_context_history` in `basic.py`). Deep copies of a context are modelled
by the value itself: the embedding is pure, so a snapshot never aliases. -/

/-- The context-relevant state of a `Bridge`. -/
structure BridgeState where
  context : Ctx
  history : List Ctx

/-- `Bridge.__init__`: empty context, history initialized with one snapshot
of the (empty) context. -/
def BridgeState.init : BridgeState :=
  { context := [], history := [[]] }

/-- `Bridge.update_context(key, value)`: set the key in the live context,
then append a deep snapshot of the entire context to history. -/
def updateContext (s : BridgeState) (key : String) (value : V) : BridgeState :=
  let c := ctxSet s.context key value
  { context := c, history := s.history ++ [c] }

/-- `Bridge.clear_context()`: clear the live context and reset history to a
single snapshot of the now-empty context. -/
def clearContext (_ : BridgeState) : BridgeState :=
  { context := [], history := [[]] }

/-- `Bridge.restore_context(index)`: on `0 <= index < len(history)`,
replace the live context with a deep copy of `history[index]` and append
that copy to history; otherwise raise `IndexError` (returned here as the
second component) leaving the state unchanged. -/
def restoreContext (s : BridgeState) (index : Int) : BridgeState × Option String :=
  if 0 ≤ index ∧ index < (s.history.length : Int) then
    let c := s.history.getD index.toNat []
    ({ context := c, history := s.history ++ [c] }, Option.none)
  else
    (s, some "Invalid context history index.")

/-- `n` successive `update_context` calls, in order. -/
def applyUpdates (s : BridgeState) (ops : List (String × V)) : BridgeState :=
  ops.foldl (fun st kv => updateContext st kv.1 kv.2) s

theorem applyUpdates_history_length (s : BridgeState) (ops : List (String × V)) :
    (applyUpdates s ops).history.length = s.history.length + ops.length := by
  induction ops generalizing s with
  | nil => simp [applyUpdates]
  | cons hd tl ih =>
      simp [applyUpdates] at ih ⊢
      rw [ih]
      simp [updateContext]
      omega

/-! ## Parameter-source auto-resolution
(`FunctionMetadata.__init__` in `basic.py`, `supports` classmethods in
`types.py`). When `params` is not supplied at registration, the code runs
`for source_cls in ParamSource.__subclasses__(): if source_cls.supports(annotation, param): ...; break`.
CPython returns `__subclasses__()` in class-creation order, i.e. the order
the classes appear in `types.py`: `InputParamSource` (line 45),
`MenuParamSource` (93), `ContextParamSource` (158), `ListParamSource` (216),
`FileParamSource` (286). -/

/-- The type annotation of a reflected parameter, as far as the `supports`
predicates inspect it. -/
inductive Ann where
  | noneA
  | enumTy (name : String)
  | listTy
  | strLit (s : String)
  | otherTy (name : String)
deriving DecidableEq

/-- The five concrete `ParamSource` subclasses in `types.py`. -/
inductive SourceKind where
  | input
  | menu
  | context
  | listSource
  | file
deriving DecidableEq

/-- `InputParamSource.supports`: `return True` (any parameter). -/
def supportsInput (_ : Ann) : Bool := true

/-- `MenuParamSource.supports`: annotation truthy, has `__class__`, and
`issubclass(annotation, Enum)` (true exactly for Enum subclasses; the model
only applies it to the class-shaped annotations the predicate accepts). -/
def supportsMenu : Ann → Bool
  | Ann.enumTy _ => true
  | _ => false

/-- `ContextParamSource.supports`: `return False`. -/
def supportsContext (_ : Ann) : Bool := false

/-- `ListParamSource.supports`: `annotation is list or annotation is List[Any] or get_origin(annotation) in (list, List)`. -/
def supportsList : Ann → Bool
  | Ann.listTy => true
  | _ => false

/-- `FileParamSource.supports`: `annotation == "file" or (hasattr(annotation, "__name__") and annotation.__name__ == "TextIO")`. -/
def supportsFile : Ann → Bool
  | Ann.strLit s => s == "file"
  | Ann.otherTy n => n == "TextIO"
  | _ => false

/-- Dispatch `source_cls.supports(annotation, param)` per subclass. -/
def supports : SourceKind → Ann → Bool
  | SourceKind.input, a => supportsInput a
  | SourceKind.menu, a => supportsMenu a
  | SourceKind.context, a => supportsContext a
  | SourceKind.listSource, a => supportsList a
  | SourceKind.file, a => supportsFile a

/-- `ParamSource.__subclasses__()` in class-creation order (file order of
`types.py`). -/
def subclassOrder : List SourceKind :=
  [SourceKind.input, SourceKind.menu, SourceKind.context,
   SourceKind.listSource, SourceKind.file]

/-- The `for ... if supports: ...; break` loop of
`FunctionMetadata.__init__`: the first subclass whose `supports` accepts the
annotation provides the `ParamSource` (via its `from_param`). -/
def resolveParamSource (ann : Ann) : Option SourceKind :=
  subclassOrder.find? (fun k => supports k ann)

/-! ## Stateful class registration
(`Bridge.register_class`, `_register_stateful_constructor`,
`_register_stateful_methods` in `basic.py`). -/

/-- `key = context_key or f"{cls.__name__}_instance"` in `register_class`
(the `or` falls through on a falsy — absent or empty — `context_key`). -/
def registerClassBaseKey (contextKey : Option String) (clsName : String) : String :=
  match contextKey with
  | some k => if !k.isEmpty then k else clsName ++ "_instance"
  | Option.none => clsName ++ "_instance"

/-- `store_key = f"{key}:{instance_name}" if instance_name else key`
(shared by `make_and_store_instance` and `method_func`; `instance_name`
defaults to `None`, and an empty string is falsy). -/
def deriveKey (base : String) (instName : Option String) : String :=
  match instName with
  | some n => if !n.isEmpty then base ++ ":" ++ n else base
  | Option.none => base

/-- `make_and_store_instance`: construct the instance, store it in the
context under the derived key via `update_context`, return the instance.
The constructed object is passed in as `inst` (construction itself is the
user class's code). -/
def makeAndStoreInstance (s : BridgeState) (key : String) (instName : Option String)
    (inst : V) : V × BridgeState :=
  let storeKey := deriveKey key instName
  (inst, updateContext s storeKey inst)

/-- The missing-instance message raised by `method_func`. -/
def missingInstanceMsg (clsName storeKey : String) : String :=
  "No " ++ clsName ++ " instance found in context for key \x27" ++ storeKey ++
  "\x27. Please create one first."

/-- `method_func` in `_register_stateful_methods`: derive the store key,
`instance = self.context.get(store_key)`, raise `RuntimeError` if
`not instance`, else call the method on the instance with the supplied
arguments. The bound method body is modelled by `method`. -/
def methodFunc (ctx : Ctx) (clsName base : String) (instName : Option String)
    (method : V → List V → V) (args : List V) : Except String V :=
  let storeKey := deriveKey base instName
  let inst := (ctxGet ctx storeKey).getD V.none
  if pyTruthy inst then Except.ok (method inst args)
  else Except.error (missingInstanceMsg clsName storeKey)

/-! ## Output-destination normalization (`FunctionMetadata.__init__`). -/

/-- The `output` argument of `register` as the code discriminates it: `None`,
a single destination object (no `__iter__`, no `strip`), an explicit list of
destinations (`__iter__`, no `strip`), or a string (`__iter__` and `strip`). -/
inductive OutputArg where
  | noneO
  | dest (name : String)
  | many (dests : List String)
  | strO (s : String)
deriving DecidableEq

/-- An element of the stored `self.output` list. -/
inductive OutItem where
  | dest (name : String)
  | str (s : String)
deriving DecidableEq

/-- `hasattr(output, "__iter__")`. -/
def hasIter : OutputArg → Bool
  | OutputArg.many _ => true
  | OutputArg.strO _ => true
  | _ => false

/-- `hasattr(output, "strip")`. -/
def hasStrip : OutputArg → Bool
  | OutputArg.strO _ => true
  | _ => false

/-- The elements obtained by iterating the argument (reached only when
`hasIter` holds). -/
def iterItems : OutputArg → List OutItem
  | OutputArg.many l => l.map OutItem.dest
  | OutputArg.strO s => s.toList.map (fun c => OutItem.str (String.mk [c]))
  | _ => []

/-- The argument itself as a single stored element (reached only when the
list-like branch is not taken). -/
def singleItem : OutputArg → OutItem
  | OutputArg.dest n => OutItem.dest n
  | OutputArg.strO s => OutItem.str s
  | OutputArg.many _ => OutItem.str ""
  | OutputArg.noneO => OutItem.str ""

/-- The output normalization of `FunctionMetadata.__init__`:
`None` → `[]`; iterable without `strip` → used as-is; else `[output]`. -/
def normalizeOutput (o : OutputArg) : List OutItem :=
  match o with
  | OutputArg.noneO => []
  | o => if hasIter o && !hasStrip o then iterItems o else [singleItem o]

/-! ## Menu option normalization (`MenuParamSource.__init__` in `types.py`). -/

/-- `hasattr(option, "__len__")`. -/
def hasLen : V → Bool
  | V.str _ => true
  | V.tuple _ => true
  | V.list _ => true
  | _ => false

/-- `len(option)` (meaningful only when `hasLen` holds). -/
def pyLen : V → Nat
  | V.str s => s.length
  | V.tuple l => l.length
  | V.list l => l.length
  | _ => 0

/-- `label, value = option`: unpacking a two-element container
(reached only when `len(option) == 2`). -/
def unpack2 : V → V × V
  | V.tuple [a, b] => (a, b)
  | V.list [a, b] => (a, b)
  | V.str s =>
      match s.toList with
      | [c1, c2] => (V.str (String.mk [c1]), V.str (String.mk [c2]))
      | _ => (V.none, V.none)
  | _ => (V.none, V.none)

/-- The loop body of `MenuParamSource.__init__`: a length-2 option unpacks
into `(label, value)`, anything else becomes `(str(option), option)`. -/
def menuNormalizeOne (o : V) : V × V :=
  if hasLen o && pyLen o == 2 then unpack2 o else (V.str (pyStr o), o)

/-- The `for option in options: ...; normalized.append((label, value))` loop,
with its explicit accumulator. -/
def menuNormalizeLoop : List V → List (V × V) → List (V × V)
  | [], acc => acc
  | o :: rest, acc => menuNormalizeLoop rest (acc ++ [menuNormalizeOne o])

/-- `self.options` after `MenuParamSource.__init__(options, ...)`. -/
def menuInitOptions (options : List V) : List (V × V) :=
  menuNormalizeLoop options []

theorem menuNormalizeLoop_eq_append (opts : List V) (acc : List (V × V)) :
    menuNormalizeLoop opts acc = acc ++ opts.map menuNormalizeOne := by
  induction opts generalizing acc with
  | nil => simp [menuNormalizeLoop]
  | cons hd tl ih => simp [menuNormalizeLoop, ih]

/-! ## The execution pipeline (`FunctionMetadata.__call__` and its helpers
`_run_pre_hooks`, `_resolve_callable_defaults`, `_run_param_validators`,
`_validate_params`, `_execute_function`, `_handle_output_destinations`,
`_run_post_hooks` in `basic.py`). -/

/-- The `default` attribute carried by a parameter's metadata: absent/None,
a plain value, or a zero-argument callable producing a value
(`callable(default)` holds exactly for the last constructor). -/
inductive Dflt where
  | noneD
  | value (v : V)
  | producer (v : V)

/-- What a custom validator call `validator(value)` does: return a boolean
or raise with a message. -/
inductive VOut where
  | ret (b : Bool)
  | exn (msg : String)

/-- The per-parameter metadata the pipeline consults: a `default` attribute
and an optional (truthy) custom `validator`. -/
structure ParamMeta where
  default : Dflt
  validator : Option (V → VOut)

/-- The value of `meta.default` when used as the fallback of
`params.get(pname, meta.default)`: `None`, the plain value, or (for a
callable default) the function object itself. -/
def dfltFallback : Dflt → V
  | Dflt.noneD => V.none
  | Dflt.value v => v
  | Dflt.producer _ => V.obj "function" true

/-- Registered command metadata as the pipeline consumes it: name, the
`self.params` mapping in insertion order, the generated pydantic model
(`self.pydantic_model(**params)` coerces or raises `ValidationError`), the
wrapped function (which may raise), and the per-destination
`hasattr(dest, "send")` flags of `self.output`. -/
structure Meta where
  name : String
  paramMetas : List (String × ParamMeta)
  schemaCheck : Ctx → Except String Ctx
  func : Ctx → Except String V
  outputHasSend : List Bool

/-- The hook lists of the owning `Bridge`: pre-hooks may mutate the
parameter mapping in place; post- and error-hooks are identified by name so
their invocations can be traced. -/
structure BridgeHooks where
  preHooks : List (Ctx → Ctx)
  postHooks : List String
  errorHooks : List String

/-- Observable pipeline events, in occurrence order. -/
inductive Ev where
  | errorHook (hook : String) (excMsg : String)
  | funcCall
  | outputSend (index : Nat)
  | postHook (hook : String)
deriving DecidableEq

/-- The two exception classes the pipeline raises:
`BridgeValidationError` and `BridgeExecutionError`. -/
inductive Failure where
  | validation (msg : String)
  | execution (msg : String)
deriving DecidableEq

/-- The inner message of `_run_param_validators` when the validator returned
a falsy result. -/
def customFalseMsg (pname : String) (value : V) : String :=
  "Validation failed for parameter \x27" ++ pname ++ "\x27: value=" ++
  pyStr value ++ " (custom validator returned False)"

/-- The outer message of `_run_param_validators` (the `raise` on a falsy
return happens inside the `try`, so it is caught and re-wrapped like a
raising validator). -/
def customWrapMsg (pname : String) (value : V) (inner : String) : String :=
  "Validation error for parameter \x27" ++ pname ++ "\x27: value=" ++
  pyStr value ++ " (" ++ inner ++ ")"

/-- The message of `_validate_params` on a pydantic `ValidationError`. -/
def schemaFailMsg (fname : String) (exc : String) : String :=
  "Parameter validation failed for function \x27" ++ fname ++ "\x27: " ++ exc

/-- The message of `_execute_function` on a raising wrapped function. -/
def execFailMsg (fname : String) (exc : String) : String :=
  "Execution failed for function \x27" ++ fname ++ "\x27: " ++ exc

/-- `_run_pre_hooks`: every pre-hook is applied to the parameter mapping,
in registration order (hooks mutate the mapping in place). -/
def applyPreHooks (b : BridgeHooks) (params : Ctx) : Ctx :=
  b.preHooks.foldl (fun p h => h p) params

/-- `_resolve_callable_defaults`: for each parameter missing from the
mapping or explicitly `None`, if its metadata default is callable, call it
and store the result. -/
def resolveCallableDefaults (metas : List (String × ParamMeta)) (params : Ctx) : Ctx :=
  metas.foldl
    (fun ps pm =>
      match (ctxGet ps pm.1).getD V.none, pm.2.default with
      | V.none, Dflt.producer v => ctxSet ps pm.1 v
      | _, _ => ps)
    params

/-- `_run_param_validators`: walk `self.params` in order; for each parameter
with a truthy validator, fetch `params.get(pname, meta.default)` and run the
validator; a falsy return or a raise aborts with the (wrapped)
`BridgeValidationError` message. Returns the message of the first failure,
if any. No error hook is consulted here. -/
def runParamValidators (metas : List (String × ParamMeta)) (params : Ctx) :
    Option String :=
  match metas with
  | [] => Option.none
  | (pname, meta) :: rest =>
      match meta.validator with
      | Option.none => runParamValidators rest params
      | some f =>
          let value := (ctxGet params pname).getD (dfltFallback meta.default)
          match f value with
          | VOut.ret true => runParamValidators rest params
          | VOut.ret false =>
              some (customWrapMsg pname value (customFalseMsg pname value))
          | VOut.exn m => some (customWrapMsg pname value m)

/-- `_handle_output_destinations`: `dest.send(result, bridge)` for each
destination that has a callable `send`, in declaration order. -/
def sendEvents : List Bool → Nat → List Ev
  | [], _ => []
  | hasSend :: rest, i =>
      if hasSend then Ev.outputSend i :: sendEvents rest (i + 1)
      else sendEvents rest (i + 1)

/-- `FunctionMetadata.__call__` (alias `validate_and_call`): pre-hooks,
callable-default resolution, custom validators, schema validation, function
execution, output dispatch, post-hooks — with error-hook notification on
schema-validation failure and on execution failure, and with both failure
exits raising the corresponding wrapped exception. Returns the outcome
paired with the trace of observable events. -/
def callPipeline (m : Meta) (b : BridgeHooks) (params0 : Ctx) :
    Except Failure V × List Ev :=
  let p1 := applyPreHooks b params0
  let p2 := resolveCallableDefaults m.paramMetas p1
  match runParamValidators m.paramMetas p2 with
  | some msg => (Except.error (Failure.validation msg), [])
  | Option.none =>
      match m.schemaCheck p2 with
      | Except.error e =>
          (Except.error (Failure.validation (schemaFailMsg m.name e)),
           b.errorHooks.map (fun h => Ev.errorHook h e))
      | Except.ok validated =>
          match m.func validated with
          | Except.error e =>
              (Except.error (Failure.execution (execFailMsg m.name e)),
               Ev.funcCall :: b.errorHooks.map (fun h => Ev.errorHook h e))
          | Except.ok result =>
              (Except.ok result,
               Ev.funcCall :: (sendEvents m.outputHasSend 0 ++
                 b.postHooks.map Ev.postHook))

/-- The parameter mapping after pre-hooks and callable-default resolution
(the mapping the two validation stages see). -/
def defaultStage (m : Meta) (b : BridgeHooks) (params0 : Ctx) : Ctx :=
  resolveCallableDefaults m.paramMetas (applyPreHooks b params0)

/-- The outcome of the custom-validator stage on that mapping. -/
def customStage (m : Meta) (b : BridgeHooks) (params0 : Ctx) : Option String :=
  runParamValidators m.paramMetas (defaultStage m b params0)

/-- Concrete command for Claim C2: one parameter `a` whose custom validator
always returns `False`; the schema and the function never reject. -/
def c2Meta : Meta :=
  { name := "add",
    paramMetas :=
      [("a", { default := Dflt.noneD,
               validator := some (fun _ => VOut.ret false) })],
    schemaCheck := Except.ok,
    func := fun _ => Except.ok (V.int 1),
    outputHasSend := [] }

/-- Concrete command for Claim C2's schema-failure branch: no custom
validators, pydantic validation always raises `"boom"`. -/
def c2SchemaMeta : Meta :=
  { name := "add",
    paramMetas := [],
    schemaCheck := fun _ => Except.error "boom",
    func := fun _ => Except.ok V.none,
    outputHasSend := [] }

/-- Concrete hook lists for Claim C2: one hook of each kind. -/
def c2Bridge : BridgeHooks :=
  { preHooks := [], postHooks := ["post0"], errorHooks := ["err0"] }

/-- Concrete command for Claim C4: schema validation always raises
`"bad type"`; a sendable output destination is attached. -/
def c4Meta : Meta :=
  { name := "g",
    paramMetas := [],
    schemaCheck := fun _ => Except.error "bad type",
    func := fun _ => Except.ok (V.int 3),
    outputHasSend := [true] }

/-- Concrete hook lists for Claim C4: one post-hook and one error hook. -/
def c4Bridge : BridgeHooks :=
  { preHooks := [], postHooks := ["p1"], errorHooks := ["e1"] }

/-!
## Claim theorems
-/

/-- Claim C1 (code evaluated at the failing input): auto-resolution does
NOT evaluate the `supports` predicates in the priority order Menu, List,
File, Context, Input. The loop iterates `ParamSource.__subclasses__()` in
class-creation order, which puts `InputParamSource` — whose predicate is
always true — first, so every parameter resolves to the Input variant: in
particular an Enum-annotated parameter and a list-annotated parameter both
resolve to Input, never to Menu or List. -/
theorem C1_auto_resolution_always_selects_input :
    resolveParamSource (Ann.enumTy "Color") = some SourceKind.input ∧
    resolveParamSource Ann.listTy = some SourceKind.input ∧
    supportsMenu (Ann.enumTy "Color") = true ∧
    supportsList Ann.listTy = true ∧
    subclassOrder.head? = some SourceKind.input ∧
    ∀ ann : Ann, resolveParamSource ann = some SourceKind.input :=
  ⟨rfl, rfl, rfl, rfl, rfl, fun _ => rfl⟩

/-- Claim C8: the stored output-destination list is normalized as the spec
says: `None` yields an empty list, a single destination yields a one-element
list containing it, and an explicit sequence of destinations is used
as-is. -/
theorem C8_output_normalization :
    normalizeOutput OutputArg.noneO = [] ∧
    (∀ n, normalizeOutput (OutputArg.dest n) = [OutItem.dest n]) ∧
    (∀ l, normalizeOutput (OutputArg.many l) = l.map OutItem.dest) :=
  ⟨rfl, fun _ => rfl, fun _ => rfl⟩

/-- Claim C10: `MenuParamSource.__init__` normalizes its options so that
every stored option is a `(label, value)` pair in the original order: an
option of length 2 is kept as the unpacked pair, and any other option `o`
is stored as `(str(o), o)`; in particular a two-element tuple option keeps
its own label and value, and the option count is preserved. -/
theorem C10_menu_option_normalization (opts : List V) :
    menuInitOptions opts =
      opts.map (fun o =>
        if hasLen o && pyLen o == 2 then unpack2 o
        else (V.str (pyStr o), o)) ∧
    (∀ l v rest,
      menuInitOptions (V.tuple [l, v] :: rest) = (l, v) :: menuInitOptions rest) ∧
    (menuInitOptions opts).length = opts.length := by
  have key : ∀ os : List V, menuInitOptions os = os.map menuNormalizeOne :=
    fun os => by simpa using menuNormalizeLoop_eq_append os []
  refine ⟨?_, ?_, ?_⟩
  · rw [key]
    rfl
  · intro l v rest
    rw [key, key]
    rfl
  · rw [key]
    simp

/-- Claim C7, counterexample: the default base storage key is NOT the
lower-cased class name followed by `"_instance"` — `register_class` uses
`f"{cls.__name__}_instance"` verbatim, so class `Counter` gets base key
`"Counter_instance"`, not `"counter_instance"`. -/
theorem C7_base_key_not_lowercased_cex :
    registerClassBaseKey Option.none "Counter" = "Counter_instance" ∧
    registerClassBaseKey Option.none "Counter" ≠ "counter_instance" := by
  constructor
  · rfl
  · decide

/-- Claim C7 as amended: for a stateful class registered without an explicit
`context_key`, the base storage key `K` defaults to the class name as
declared (case preserved) followed by `"_instance"`; each created instance
is stored in the context under the key derived from `K` and the optional
instance name (`K` itself, or `K:name` for a non-empty name), and the
constructor command returns the constructed instance. -/
theorem C7_stateful_base_key_and_storage (clsName : String) (s : BridgeState)
    (nm : Option String) (inst : V) :
    registerClassBaseKey Option.none clsName = clsName ++ "_instance" ∧
    (makeAndStoreInstance s (registerClassBaseKey Option.none clsName) nm inst).1
      = inst ∧
    ctxGet
      (makeAndStoreInstance s (registerClassBaseKey Option.none clsName) nm
        inst).2.context
      (deriveKey (clsName ++ "_instance") nm) = some inst := by
  refine ⟨rfl, rfl, ?_⟩
  simp only [makeAndStoreInstance, updateContext, registerClassBaseKey]
  exact ctxGet_ctxSet_self s.context (deriveKey (clsName ++ "_instance") nm) inst

/-- The context of Claim C6's counterexample: a `Counter` instance whose
`bool()` is false (e.g. a class defining `__bool__` or `__len__`), stored
under the unnamed key. -/
def c6Ctx : Ctx := [("Counter_instance", V.obj "Counter" false)]

/-- Claim C6, counterexample: an instance IS stored under the derived key,
yet the method command raises the missing-instance error instead of
invoking the method — `method_func` tests `if not instance:`, so a falsy
stored instance is treated as absent. The claim's "otherwise it invokes the
method on the stored instance and returns the method's result" therefore
fails at this input (the method would return the instance itself). -/
theorem C6_falsy_instance_cex :
    ctxGet c6Ctx (deriveKey "Counter_instance" Option.none)
      = some (V.obj "Counter" false) ∧
    methodFunc c6Ctx "Counter" "Counter_instance" Option.none
      (fun inst _ => inst) []
      = Except.error (missingInstanceMsg "Counter" "Counter_instance") :=
  ⟨rfl, rfl⟩

/-- Claim C6 as amended: a stateful method command looks up the stored
instance under the derived key (base key, or base key + ":" + name for a
non-empty instance name, an empty name behaving as unsupplied); if the
value stored under that key is absent or falsy, the call fails with the
missing-instance error naming that key, and otherwise it invokes the method
on the stored instance with the supplied arguments and returns the method's
result. -/
theorem C6_method_lookup_behavior (ctx : Ctx) (cls base : String)
    (nm : Option String) (method : V → List V → V) (args : List V) :
    (pyTruthy ((ctxGet ctx (deriveKey base nm)).getD V.none) = false →
      methodFunc ctx cls base nm method args
        = Except.error (missingInstanceMsg cls (deriveKey base nm))) ∧
    (∀ inst, ctxGet ctx (deriveKey base nm) = some inst →
      pyTruthy inst = true →
      methodFunc ctx cls base nm method args = Except.ok (method inst args)) := by
  constructor
  · intro hfalse
    simp [methodFunc, hfalse]
  · intro inst hget htrue
    simp [methodFunc, hget, htrue]

/-- Claim C6, witness for the amended theorem: a truthy stored instance is
found and the method result returned; with an empty context the call fails
with the missing-instance error naming the key. -/
theorem C6_method_lookup_behavior_witness :
    methodFunc [("Counter_instance", V.obj "Counter" true)] "Counter"
      "Counter_instance" Option.none (fun inst _ => inst) []
      = Except.ok (V.obj "Counter" true) ∧
    methodFunc [] "Counter" "Counter_instance" Option.none
      (fun inst _ => inst) []
      = Except.error (missingInstanceMsg "Counter" "Counter_instance") :=
  ⟨(C6_method_lookup_behavior [("Counter_instance", V.obj "Counter" true)]
      "Counter" "Counter_instance" Option.none (fun inst _ => inst) []).2
      (V.obj "Counter" true) rfl rfl,
   (C6_method_lookup_behavior [] "Counter" "Counter_instance" Option.none
      (fun inst _ => inst) []).1 rfl⟩

/-- The context of Claim C9's witness: a named `Counter` instance whose
`bool()` is false. -/
def c9Ctx : Ctx := [("Counter_instance:x", V.obj "Counter" false)]

/-- Claim C9: a stateful method command treats a stored-but-falsy instance
as absent — if the object stored under the resolved key is falsy, invoking
the method command raises the missing-instance error even though an
instance is actually stored under that key. -/
theorem C9_falsy_instance_treated_missing (ctx : Ctx) (cls base : String)
    (nm : Option String) (method : V → List V → V) (args : List V) (inst : V)
    (hget : ctxGet ctx (deriveKey base nm) = some inst)
    (hfalsy : pyTruthy inst = false) :
    methodFunc ctx cls base nm method args
      = Except.error (missingInstanceMsg cls (deriveKey base nm)) := by
  simp [methodFunc, hget, hfalsy]

/-- Claim C9, witness: the named falsy `Counter` instance in `c9Ctx` makes
the method command fail with the missing-instance error for the derived
key. -/
theorem C9_falsy_instance_treated_missing_witness :
    methodFunc c9Ctx "Counter" "Counter_instance" (some "x")
      (fun inst _ => inst) []
      = Except.error (missingInstanceMsg "Counter" "Counter_instance:x") :=
  C9_falsy_instance_treated_missing c9Ctx "Counter" "Counter_instance"
    (some "x") (fun inst _ => inst) [] (V.obj "Counter" false) rfl rfl

/-- Claim C3: history length after `n` successive `update_context` calls on
a fresh registry equals `n + 1`; each `update_context` call increases the
history length by exactly one; `clear_context` empties the live context and
resets the history length to 1; and `restore_context` on a valid index
increases the history length by exactly 1 and sets the live context equal
to (a copy of) `history[i]`. -/
theorem C3_context_history_monotonicity (ops : List (String × V))
    (s t u : BridgeState) (k : String) (v : V) (i : Int)
    (h : 0 ≤ i ∧ i < (u.history.length : Int)) :
    (applyUpdates BridgeState.init ops).history.length = ops.length + 1 ∧
    (updateContext s k v).history.length = s.history.length + 1 ∧
    (clearContext t).history.length = 1 ∧
    (clearContext t).context = [] ∧
    (restoreContext u i).1.history.length = u.history.length + 1 ∧
    (restoreContext u i).1.context = u.history.getD i.toNat [] := by
  refine ⟨?_, ?_, rfl, rfl, ?_, ?_⟩
  · rw [applyUpdates_history_length]
    show 1 + ops.length = ops.length + 1
    omega
  · simp [updateContext]
  · simp [restoreContext, h]
  · simp [restoreContext, h]

/-- Claim C3, witness: on a fresh registry, two updates give history length
3; one update from the initial state gives length 2; clearing resets to a
single snapshot of the empty context; restoring index 0 appends the empty
snapshot and makes it live. -/
theorem C3_context_history_monotonicity_witness :
    (applyUpdates BridgeState.init
      [("a", V.int 1), ("b", V.int 2)]).history.length = 3 ∧
    (updateContext BridgeState.init "k" (V.int 7)).history.length = 2 ∧
    (clearContext BridgeState.init).history.length = 1 ∧
    (clearContext BridgeState.init).context = [] ∧
    (restoreContext BridgeState.init 0).1.history.length = 2 ∧
    (restoreContext BridgeState.init 0).1.context = [] :=
  C3_context_history_monotonicity [("a", V.int 1), ("b", V.int 2)]
    BridgeState.init BridgeState.init BridgeState.init "k" (V.int 7) 0
    (by decide)

/-- Claim C5: `restore_context(index)` raises the out-of-range error if and
only if `index` is not a valid history position (`0 <= index < len(history)`);
on a valid index it replaces the live context with a (deep copy of)
`history[index]` and appends that copy as a new history entry, and on an
invalid index it raises without modifying the live context or the
history. -/
theorem C5_restore_context_spec (s : BridgeState) (i : Int) :
    ((restoreContext s i).2.isSome ↔
      ¬(0 ≤ i ∧ i < (s.history.length : Int))) ∧
    (0 ≤ i ∧ i < (s.history.length : Int) →
      restoreContext s i =
        ({ context := s.history.getD i.toNat [],
           history := s.history ++ [s.history.getD i.toNat []] },
         Option.none)) ∧
    (¬(0 ≤ i ∧ i < (s.history.length : Int)) →
      restoreContext s i = (s, some "Invalid context history index.")) := by
  by_cases h : 0 ≤ i ∧ i < (s.history.length : Int)
  · simp [restoreContext, h]
  · simp [restoreContext, h]

/-- Claim C5, witness: on the fresh registry, index 0 is valid and restores
the empty snapshot while appending it; index 5 is out of range and returns
the unchanged state together with the `IndexError`. -/
theorem C5_restore_context_spec_witness :
    restoreContext BridgeState.init 0 =
      ({ context := [], history := [[], []] }, Option.none) ∧
    restoreContext BridgeState.init 5 =
      (BridgeState.init, some "Invalid context history index.") := by
  constructor
  · exact ((C5_restore_context_spec BridgeState.init 0).2.1 (by decide)).trans rfl
  · exact (C5_restore_context_spec BridgeState.init 5).2.2 (by decide)

/-- Claim C2, counterexample: an invocation that fails custom validation
does NOT route through the error-hook list — with one registered error hook
and a custom validator returning `False`, the pipeline raises
`BridgeValidationError` with an empty event trace: no error hook was
invoked before the exception propagated. -/
theorem C2_custom_validation_skips_error_hooks_cex :
    c2Bridge.errorHooks = ["err0"] ∧
    callPipeline c2Meta c2Bridge [("a", V.int 5)] =
      (Except.error (Failure.validation
        (customWrapMsg "a" (V.int 5) (customFalseMsg "a" (V.int 5)))), []) :=
  ⟨rfl, rfl⟩

/-- Claim C2 as amended: an invocation that fails schema validation invokes
every registered error hook with the validation exception (and the command
metadata) before `ValidationFailed` is raised; an invocation that fails
custom validation raises `ValidationFailed` directly, without invoking any
error hook. -/
theorem C2_validation_error_hook_routing (m : Meta) (b : BridgeHooks)
    (p0 : Ctx) :
    (∀ msg, customStage m b p0 = some msg →
      callPipeline m b p0 = (Except.error (Failure.validation msg), [])) ∧
    (∀ e, customStage m b p0 = Option.none →
      m.schemaCheck (defaultStage m b p0) = Except.error e →
      callPipeline m b p0 =
        (Except.error (Failure.validation (schemaFailMsg m.name e)),
         b.errorHooks.map (fun h => Ev.errorHook h e))) := by
  constructor
  · intro msg hmsg
    simp only [customStage, defaultStage] at hmsg
    simp [callPipeline, hmsg]
  · intro e hnone hsc
    simp only [customStage, defaultStage] at hnone hsc
    simp [callPipeline, hnone, hsc]

/-- Claim C2, witness for the amended theorem: a schema failure notifies
the single registered error hook with the pydantic exception before the
wrapped validation error; a custom-validator failure produces the wrapped
validation error with no hook event. -/
theorem C2_validation_error_hook_routing_witness :
    callPipeline c2SchemaMeta c2Bridge [] =
      (Except.error (Failure.validation (schemaFailMsg "add" "boom")),
       [Ev.errorHook "err0" "boom"]) ∧
    callPipeline c2Meta c2Bridge [("a", V.int 5)] =
      (Except.error (Failure.validation
        (customWrapMsg "a" (V.int 5) (customFalseMsg "a" (V.int 5)))), []) :=
  ⟨((C2_validation_error_hook_routing c2SchemaMeta c2Bridge []).2 "boom"
      rfl rfl).trans rfl,
   (C2_validation_error_hook_routing c2Meta c2Bridge [("a", V.int 5)]).1 _ rfl⟩

/-- Claim C4: for every input mapping whose processing fails custom
validation or schema validation (i.e. the pipeline raises
`BridgeValidationError`), the wrapped function is never called and no
post-hook fires. -/
theorem C4_no_partial_execution (m : Meta) (b : BridgeHooks) (p0 : Ctx)
    (msg : String)
    (h : (callPipeline m b p0).1 = Except.error (Failure.validation msg)) :
    Ev.funcCall ∉ (callPipeline m b p0).2 ∧
    ∀ hk, Ev.postHook hk ∉ (callPipeline m b p0).2 := by
  cases hrv : runParamValidators m.paramMetas
      (resolveCallableDefaults m.paramMetas (applyPreHooks b p0)) with
  | some msg0 =>
      simp [callPipeline, hrv]
  | none =>
      cases hsc : m.schemaCheck
          (resolveCallableDefaults m.paramMetas (applyPreHooks b p0)) with
      | error e =>
          simp [callPipeline, hrv, hsc]
      | ok validated =>
          cases hf : m.func validated with
          | error e2 =>
              simp [callPipeline, hrv, hsc, hf] at h
          | ok r =>
              simp [callPipeline, hrv, hsc, hf] at h

/-- Claim C4, witness: a command whose schema check rejects the (empty)
input mapping — the pipeline fails validation, the trace contains no
function call and no post-hook event, although a post-hook and an output
destination are registered. -/
theorem C4_no_partial_execution_witness :
    Ev.funcCall ∉ (callPipeline c4Meta c4Bridge []).2 ∧
    Ev.postHook "p1" ∉ (callPipeline c4Meta c4Bridge []).2 :=
  ⟨(C4_no_partial_execution c4Meta c4Bridge []
      (schemaFailMsg "g" "bad type") rfl).1,
   (C4_no_partial_execution c4Meta c4Bridge []
      (schemaFailMsg "g" "bad type") rfl).2 "p1"⟩

end Bridges
